import Mathlib

/-!
Verification of the procedural scene-layout engine and camera/selection
state machine of the Planetary music-galaxy visualizer.

The C++ sources (src/main.cpp, src/camera.h, src/music_data.h) are shallowly
embedded here: `float` arithmetic is modelled over `ℚ` (IEEE floats idealized
as exact rationals), the transcendental library functions `sinf`, `cosf`,
`sqrtf` and the standard-library string hash `std::hash<std::string>` are
abstracted as parameters collected in a `Prims` structure (every theorem
quantifies over them or instantiates them concretely), and the process-global
genre-angle cache is made an explicit state value threaded through the
scene-building functions.
-/

namespace Planetary

/-- 3D vector over ℚ, modelling glm::vec3. -/
structure Vec3 where
  x : ℚ
  y : ℚ
  z : ℚ
deriving DecidableEq, Repr

namespace Vec3

def add (a b : Vec3) : Vec3 := ⟨a.x + b.x, a.y + b.y, a.z + b.z⟩

def sub (a b : Vec3) : Vec3 := ⟨a.x - b.x, a.y - b.y, a.z - b.z⟩

def scale (k : ℚ) (v : Vec3) : Vec3 := ⟨k * v.x, k * v.y, k * v.z⟩

def zero : Vec3 := ⟨0, 0, 0⟩

end Vec3

/-- External numeric primitives left abstract by the embedding: the C math
library's `sinf`, `cosf`, `sqrtf` and `std::hash<std::string>`.  All are pure
deterministic functions in C++ (std::hash is stable within a process run). -/
structure Prims where
  sinf : ℚ → ℚ
  cosf : ℚ → ℚ
  sqrtf : ℚ → ℚ
  hashStr : String → Nat

/-- Concrete instantiation of the primitives used to exercise theorems on
concrete inputs (any pure functions are admissible instantiations). -/
def prims0 : Prims where
  sinf := fun q => q
  cosf := fun _ => 1
  sqrtf := fun q => q
  hashStr := fun s => s.length

/-- The double constant M_PI as used by the source (idealized rational). -/
def mPI : ℚ := 3.14159265358979323846

-- ============================================================
-- Camera (src/camera.h)
-- ============================================================

/-- Camera state, mirroring the fields of `class Camera` in camera.h. -/
structure Camera where
  position : Vec3
  target : Vec3
  up : Vec3
  targetPos : Vec3
  targetLookAt : Vec3
  fov : ℚ
  nearPlane : ℚ
  farPlane : ℚ
  aspect : ℚ
  orbitYaw : ℚ
  orbitPitch : ℚ
  orbitDist : ℚ
  targetOrbitDist : ℚ
  autoRotateSpeed : ℚ
  autoRotate : Bool
deriving DecidableEq, Repr

/-- The camera's in-class member initializers (camera.h lines 11-31). -/
def initCamera : Camera where
  position := ⟨20, 100, 60⟩
  target := Vec3.zero
  up := ⟨0, 1, 0⟩
  targetPos := ⟨20, 100, 60⟩
  targetLookAt := Vec3.zero
  fov := 60
  nearPlane := 0.01
  farPlane := 2000
  aspect := 16 / 9
  orbitYaw := 0.3
  orbitPitch := 1.2
  orbitDist := 150
  targetOrbitDist := 150
  autoRotateSpeed := 0.02
  autoRotate := true

namespace Camera

/-- `Camera::update(float dt)` (camera.h lines 33-51).  Note that the
`orbitDist` blend factor `4.0f * dt` is NOT clamped, while the `position`
and `target` blend factors are clamped to `min(4.0f * dt, 1.0f)`. -/
def update (p : Prims) (dt : ℚ) (c : Camera) : Camera :=
  let yaw := if c.autoRotate then c.orbitYaw + c.autoRotateSpeed * dt else c.orbitYaw
  let od := c.orbitDist + (c.targetOrbitDist - c.orbitDist) * 4 * dt
  let x := od * p.cosf c.orbitPitch * p.sinf yaw
  let y := od * p.sinf c.orbitPitch
  let z := od * p.cosf c.orbitPitch * p.cosf yaw
  let desiredPos := c.targetLookAt.add ⟨x, y, z⟩
  { c with
    orbitYaw := yaw
    orbitDist := od
    position := c.position.add ((desiredPos.sub c.position).scale (min (4 * dt) 1))
    target := c.target.add ((c.targetLookAt.sub c.target).scale (min (4 * dt) 1)) }

/-- `Camera::flyTo(glm::vec3 pos, float dist)` (camera.h lines 73-76). -/
def flyTo (c : Camera) (pos : Vec3) (dist : ℚ) : Camera :=
  { c with targetLookAt := pos, targetOrbitDist := dist }

/-- The desired position computed inside `update` for given dt. -/
def desiredPosOf (p : Prims) (dt : ℚ) (c : Camera) : Vec3 :=
  let yaw := if c.autoRotate then c.orbitYaw + c.autoRotateSpeed * dt else c.orbitYaw
  let od := c.orbitDist + (c.targetOrbitDist - c.orbitDist) * 4 * dt
  c.targetLookAt.add
    ⟨od * p.cosf c.orbitPitch * p.sinf yaw,
     od * p.sinf c.orbitPitch,
     od * p.cosf c.orbitPitch * p.cosf yaw⟩

end Camera

-- ============================================================
-- Music library data model (src/music_data.h lines 27-62)
-- ============================================================

/-- `struct TrackData` (music_data.h).  `duration` is a float in seconds. -/
structure TrackData where
  filePath : String
  id : String
  title : String
  artist : String
  album : String
  albumArtist : String
  trackNumber : ℤ
  duration : ℚ
  year : ℤ
  genre : String
deriving DecidableEq, Repr

/-- `struct AlbumData` (music_data.h).  The raw cover-art byte buffer is GPU
texture input only and is not modelled. -/
structure AlbumData where
  name : String
  artist : String
  id : String
  year : ℤ
  tracks : List TrackData
deriving DecidableEq, Repr

/-- `struct ArtistData` (music_data.h). -/
structure ArtistData where
  name : String
  primaryGenre : String
  albums : List AlbumData
  totalTracks : ℤ
deriving DecidableEq, Repr

/-- `struct MusicLibrary` (music_data.h). -/
structure MusicLibrary where
  artists : List ArtistData
  totalTracks : ℤ
  totalAlbums : ℤ
deriving DecidableEq, Repr

-- ============================================================
-- Scene graph node types (main.cpp lines 100-136)
-- ============================================================

/-- `ArtistNode::AlbumOrbit::TrackOrbit` (main.cpp lines 123-132). -/
structure TrackOrbit where
  radius : ℚ
  angle : ℚ
  speed : ℚ
  size : ℚ
  name : String
  filePath : String
  duration : ℚ
  tiltX : ℚ
  tiltZ : ℚ
deriving DecidableEq, Repr

/-- `ArtistNode::AlbumOrbit` (main.cpp lines 114-134). -/
structure AlbumOrbit where
  radius : ℚ
  angle : ℚ
  speed : ℚ
  planetSize : ℚ
  numTracks : ℕ
  name : String
  artistIndex : ℕ
  albumIndex : ℕ
  tracks : List TrackOrbit
deriving DecidableEq, Repr

/-- `struct ArtistNode` (main.cpp lines 100-136). -/
structure ArtistNode where
  index : ℕ
  name : String
  pos : Vec3
  hue : ℚ
  sat : ℚ
  color : Vec3
  glowColor : Vec3
  radiusInit : ℚ
  radius : ℚ
  glowRadius : ℚ
  idealCameraDist : ℚ
  totalTracks : ℤ
  isSelected : Bool
  albumOrbits : List AlbumOrbit
deriving DecidableEq, Repr

-- ============================================================
-- Artist color (main.cpp lines 141-171, computeArtistColor)
-- ============================================================

/-- Truncation toward zero, the semantics of a C `(int)` cast on a float. -/
def cppTrunc (q : ℚ) : ℤ := if 0 ≤ q then ⌊q⌋ else -⌊-q⌋

/-- C `fmodf`: remainder with the sign of the dividend. -/
def cppFmod (a b : ℚ) : ℚ := a - (cppTrunc (a / b) : ℚ) * b

/-- `std::clamp` for integers. -/
def clampInt (v lo hi : ℤ) : ℤ := max lo (min v hi)

/-- The fields of `ArtistNode` written by `computeArtistColor`. -/
structure ArtistColor where
  hue : ℚ
  sat : ℚ
  color : Vec3
  glowColor : Vec3
  radiusInit : ℚ
  radius : ℚ
deriving DecidableEq, Repr

/-- The sector-based HSV to RGB conversion lambda inside `computeArtistColor`
(main.cpp lines 153-165).  The `switch` default branch absorbs every sector
index other than 0-4, including the negative values C truncation can yield. -/
def hsvToRgb (h s v : ℚ) : Vec3 :=
  let c := v * s
  let x := c * (1 - |cppFmod (h * 6) 2 - 1|)
  let m := v - c
  let hi := Int.tmod (cppTrunc (h * 6)) 6
  let rgb : Vec3 :=
    if hi = 0 then ⟨c, x, 0⟩
    else if hi = 1 then ⟨x, c, 0⟩
    else if hi = 2 then ⟨0, c, x⟩
    else if hi = 3 then ⟨0, x, c⟩
    else if hi = 4 then ⟨x, 0, c⟩
    else ⟨c, 0, x⟩
  rgb.add ⟨m, m, m⟩

/-- The space character code used as the fallback for short names. -/
def spaceCode : ℤ := 32

/-- Character extraction at the top of `computeArtistColor` (main.cpp lines
143-144): `char c1 = ' ', c2 = ' '; if (name.length() >= 3) { c1 = name[1];
c2 = name[2]; }`.  Names are modelled as Lean strings; a byte of the C++
string is modelled by the code point of the corresponding character. -/
def extractChar (name : String) (i : ℕ) : ℤ :=
  if 3 ≤ name.length then ((name.data.getD i (Char.ofNat 32)).toNat : ℤ) else spaceCode

/-- The body of `computeArtistColor` after character extraction
(main.cpp lines 145-170), as a pure function of the two extracted bytes. -/
def artistColorFromChars (p : Prims) (c1 c2 : ℤ) : ArtistColor :=
  let c1Int := clampInt c1 32 127
  let c2Int := clampInt c2 32 127
  let totalCharAscii := (c1Int - 32) + (c2Int - 32)
  let asciiPer : ℚ := ((totalCharAscii : ℚ) / 190) * 5000
  let hue := p.sinf asciiPer * 0.35 + 0.35
  let sat := (1 - p.sinf ((hue + 0.15) * mPI)) * 0.75
  let radiusInit := 1.25 + (0.66 - hue)
  { hue := hue
    sat := sat
    color := hsvToRgb hue (max sat 0.5) 1
    glowColor := hsvToRgb hue (min (sat + 0.2) 1) 1
    radiusInit := radiusInit
    radius := radiusInit }

/-- `computeArtistColor` (main.cpp lines 141-171). -/
def computeArtistColor (p : Prims) (name : String) : ArtistColor :=
  artistColorFromChars p (extractChar name 1) (extractChar name 2)

-- ============================================================
-- Genre angle cache (main.cpp lines 177-187)
-- ============================================================

/-- The process-global mutable state `g_genreAngles` / `g_nextGenreAngle`
(main.cpp lines 177-178), made explicit. -/
structure GenreState where
  angles : String → Option ℚ
  nextAngle : ℚ

/-- The state of the freshly started process: empty map, counter zero. -/
def initGenreState : GenreState := ⟨fun _ => none, 0⟩

/-- `getGenreAngle` (main.cpp lines 180-187): returns the cached angle, or
assigns the next golden-angle slot and caches it. -/
def getGenreAngle (st : GenreState) (genre : String) : ℚ × GenreState :=
  match st.angles genre with
  | some a => (a, st)
  | none =>
      let a := st.nextAngle
      (a, ⟨fun g => if g = genre then some a else st.angles g,
           st.nextAngle + 0.618 * 2 * mPI⟩)

-- ============================================================
-- Star positioning (main.cpp lines 189-208, computeArtistPosition)
-- ============================================================

/-- The position computation of `computeArtistPosition` (main.cpp lines
189-208) given the genre base angle already looked up.  The `total` parameter
of the C++ function is unused by its body and is omitted. -/
def artistPosFrom (p : Prims) (name : String) (genreBase : ℚ) : Vec3 :=
  let h := p.hashStr name
  let hashPer0 : ℚ := ((h % 9000 : ℕ) : ℚ) / 90 + 10
  let spreadFactor : ℚ := 3
  let hashPer := hashPer0 * spreadFactor
  let nameOffset : ℚ := ((h % 628 : ℕ) : ℚ) / 100
  let genreSpread : ℚ := 0.8
  let angle := genreBase + nameOffset * genreSpread
  let h2 := p.hashStr (name ++ "_y")
  let yHash : ℚ := (((h2 % 10000 : ℕ) : ℚ) / 10000 - 0.5) * 2
  let height := yHash * hashPer * 0.35
  ⟨p.cosf angle * hashPer, height, p.sinf angle * hashPer⟩

/-- `computeArtistPosition` (main.cpp lines 189-208), threading the genre
cache state. -/
def computeArtistPosition (p : Prims) (name genre : String) (st : GenreState) :
    Vec3 × GenreState :=
  let gp := getGenreAngle st genre
  (artistPosFrom p name gp.1, gp.2)

-- ============================================================
-- Album orbit layout (main.cpp lines 213-257, computeAlbumOrbits)
-- ============================================================

/-- Moon size formula (main.cpp line 236):
`max(0.04f, 0.02f + 0.03f * (duration / 300.0f))`. -/
def moonSizeOf (duration : ℚ) : ℚ := max 0.04 (0.02 + 0.03 * (duration / 300))

/-- Moon angular speed formula (main.cpp line 242):
`(2π) / (max(duration, 60) * 0.35)`. -/
def moonSpeedOf (duration : ℚ) : ℚ := (2 * mPI) / (max duration 60 * 0.35)

/-- The per-album radial footprint (main.cpp line 223):
`max(numTracks * 0.065f, 0.2f)`. -/
def albumFootprint (numTracks : ℕ) : ℚ := max ((numTracks : ℚ) * 0.065) 0.2

/-- The inner track loop of `computeAlbumOrbits` (main.cpp lines 231-251),
accumulating the running track orbit radius `trackOrbitR` and index `ti`. -/
def trackOrbitsAux (p : Prims) (r : ℚ) (ti : ℕ) : List TrackData → List TrackOrbit
  | [] => []
  | t :: rest =>
      let moonSize := moonSizeOf t.duration
      let r1 := r + moonSize * 2
      let trackHash := p.hashStr (t.title ++ toString ti)
      let tOrbit : TrackOrbit :=
        { radius := r1
          angle := (ti : ℚ) * 2.396
          speed := moonSpeedOf t.duration
          size := moonSize
          name := t.title
          filePath := t.filePath
          duration := t.duration
          tiltX := (((trackHash % 1000 : ℕ) : ℚ) / 1000 - 0.5) * 0.5
          tiltZ := ((((trackHash / 1024) % 1000 : ℕ) : ℚ) / 1000 - 0.5) * 0.4 }
      tOrbit :: trackOrbitsAux p (r1 + moonSize * 2) (ti + 1) rest

/-- The outer album loop of `computeAlbumOrbits` (main.cpp lines 217-255),
accumulating `orbitOffset` and `albumIdx`; returns the orbits together with
the final `orbitOffset`. -/
def albumOrbitsAux (p : Prims) (artistIdx : ℕ) (orbitOffset : ℚ) (albumIdx : ℕ) :
    List AlbumData → List AlbumOrbit × ℚ
  | [] => ([], orbitOffset)
  | album :: rest =>
      let numTracks := album.tracks.length
      let amt := albumFootprint numTracks
      let off1 := orbitOffset + amt
      let planetSize := max 0.15 (0.1 + p.sqrtf (numTracks : ℚ) * 0.06)
      let orbit : AlbumOrbit :=
        { radius := off1
          angle := (albumIdx : ℚ) * 0.618 * mPI * 2
          speed := 0.025 / p.sqrtf (max off1 0.5)
          planetSize := planetSize
          numTracks := numTracks
          name := album.name
          artistIndex := artistIdx
          albumIndex := albumIdx
          tracks := trackOrbitsAux p (planetSize * 3) 0 album.tracks }
      let rec_ := albumOrbitsAux p artistIdx (off1 + amt) (albumIdx + 1) rest
      (orbit :: rec_.1, rec_.2)

/-- `computeAlbumOrbits` (main.cpp lines 213-257): returns the album orbit
list and `idealCameraDist = max(orbitOffset * 2.6f, 8.0f)`, starting from
`orbitOffset = radiusInit * 1.25f`. -/
def computeAlbumOrbits (p : Prims) (radiusInit : ℚ) (artistData : ArtistData)
    (artistIdx : ℕ) : List AlbumOrbit × ℚ :=
  let r := albumOrbitsAux p artistIdx (radiusInit * 1.25) 0 artistData.albums
  (r.1, max (r.2 * 2.6) 8)

-- ============================================================
-- Scene builder (main.cpp lines 996-1046, buildScene)
-- ============================================================

/-- `glm::length`, via the abstract square root. -/
def vecLength (p : Prims) (v : Vec3) : ℚ := p.sqrtf (v.x * v.x + v.y * v.y + v.z * v.z)

/-- The node built for one artist once its genre base angle is known
(main.cpp lines 1000-1008), including the glow radius formula
`radiusInit * (0.8f + min(totalTracks / 30.0f, 1.0f) * 1.2f)`. -/
def mkArtistNode (p : Prims) (i : ℕ) (a : ArtistData) (genreBase : ℚ) : ArtistNode :=
  let col := computeArtistColor p a.name
  let orbits := computeAlbumOrbits p col.radiusInit a i
  { index := i
    name := a.name
    pos := artistPosFrom p a.name genreBase
    hue := col.hue
    sat := col.sat
    color := col.color
    glowColor := col.glowColor
    radiusInit := col.radiusInit
    radius := col.radius
    glowRadius := col.radiusInit * (0.8 + min ((a.totalTracks : ℚ) / 30) 1 * 1.2)
    idealCameraDist := orbits.2
    totalTracks := a.totalTracks
    isSelected := false
    albumOrbits := orbits.1 }

/-- One iteration of the artist loop in `buildScene`: the only stateful step
is the genre angle lookup inside `computeArtistPosition`. -/
def buildArtistNode (p : Prims) (st : GenreState) (i : ℕ) (a : ArtistData) :
    ArtistNode × GenreState :=
  let gp := getGenreAngle st a.primaryGenre
  (mkArtistNode p i a gp.1, gp.2)

/-- The artist loop of `buildScene` (main.cpp lines 999-1009). -/
def buildNodesAux (p : Prims) (st : GenreState) (i : ℕ) :
    List ArtistData → List ArtistNode × GenreState
  | [] => ([], st)
  | a :: rest =>
      let ns := buildArtistNode p st i a
      let tail := buildNodesAux p ns.2 (i + 1) rest
      (ns.1 :: tail.1, tail.2)

/-- `max` of star distances from the origin (main.cpp lines 1010-1011). -/
def maxStarDist (p : Prims) (nodes : List ArtistNode) : ℚ :=
  nodes.foldl (fun m n => max m (vecLength p n.pos)) 0

/-- The scene data produced by `buildScene`: the node list plus the galaxy
camera framing distance `max(maxR * 1.5f, 50.0f)` that it writes into
`camera.targetOrbitDist` and `camera.orbitDist` (main.cpp lines 1010-1013).
The album-art GL texture upload at the end of `buildScene` is I/O and is
outside the model. -/
structure SceneGraph where
  artistNodes : List ArtistNode
  galaxyCameraDist : ℚ
deriving Repr

/-- `buildScene` (main.cpp lines 996-1046), threading the process-global
genre-angle cache state explicitly. -/
def buildScene (p : Prims) (st : GenreState) (lib : MusicLibrary) :
    SceneGraph × GenreState :=
  let ns := buildNodesAux p st 0 lib.artists
  ({ artistNodes := ns.1,
     galaxyCameraDist := max (maxStarDist p ns.1 * 1.5) 50 }, ns.2)

-- ============================================================
-- Moon position computation (main.cpp lines 1070-1077 and call sites)
-- ============================================================

/-- `getMoonPos` (main.cpp lines 1070-1077): orbit point rotated by the two
tilt angles (the y component is computed from the untilted x and z, then
x and z are scaled by the respective tilt cosines), translated by center. -/
def getMoonPos (p : Prims) (center : Vec3) (radius angle tiltX tiltZ : ℚ) : Vec3 :=
  let x := p.cosf angle * radius
  let z := p.sinf angle * radius
  let y := x * p.sinf tiltX + z * p.sinf tiltZ
  ⟨center.x + x * p.cosf tiltX, center.y + y, center.z + z * p.cosf tiltZ⟩

/-- Current position of an album planet (the expression
`star.pos + vec3(cos(a)*radius, 0, sin(a)*radius)` with
`a = angle + elapsedTime * speed`, recomputed identically at main.cpp
lines 2561-2562, 2670-2671, 2683-2684, 2609-2610). -/
def albumPosAt (p : Prims) (starPos : Vec3) (o : AlbumOrbit) (elapsed : ℚ) : Vec3 :=
  let a := o.angle + elapsed * o.speed
  starPos.add ⟨p.cosf a * o.radius, 0, p.sinf a * o.radius⟩

/-- The moon position used by `hitTestPlanetMoon` (main.cpp lines 2574-2575):
`getMoonPos(apos, t.radius, ta, t.tiltX, t.tiltZ)` with
`ta = t.angle + elapsedTime * t.speed`. -/
def hitTestMoonPos (p : Prims) (starPos : Vec3) (o : AlbumOrbit) (t : TrackOrbit)
    (elapsed : ℚ) : Vec3 :=
  getMoonPos p (albumPosAt p starPos o elapsed) t.radius (t.angle + elapsed * t.speed)
    t.tiltX t.tiltZ

/-- The moon position the camera flies to when a moon is clicked
(main.cpp lines 2672-2674): `mpos = apos + vec3(cos(ta)*t.radius, 0,
sin(ta)*t.radius)` - computed WITHOUT the orbital tilt. -/
def clickFlyMoonPos (p : Prims) (starPos : Vec3) (o : AlbumOrbit) (t : TrackOrbit)
    (elapsed : ℚ) : Vec3 :=
  let ta := t.angle + elapsed * t.speed
  (albumPosAt p starPos o elapsed).add ⟨p.cosf ta * t.radius, 0, p.sinf ta * t.radius⟩

-- ============================================================
-- Selection / level-of-detail state machine (main.cpp handleEvents)
-- ============================================================

/-- The level constants (main.cpp lines 65-68). -/
def G_ALPHA_LEVEL : ℤ := 1

def G_ARTIST_LEVEL : ℤ := 2

def G_ALBUM_LEVEL : ℤ := 3

def G_TRACK_LEVEL : ℤ := 4

/-- The selection-related fields of `struct App` (main.cpp lines 611-613)
together with `camera.autoRotate` and the main-loop `running` flag. -/
structure SelState where
  selectedArtist : ℤ
  selectedAlbum : ℤ
  currentLevel : ℤ
  autoRotate : Bool
  running : Bool
deriving DecidableEq, Repr

/-- A default node value for out-of-range list reads (C++ indexing is only
ever performed at indices known to be in range). -/
def defaultArtistNode : ArtistNode :=
  { index := 0, name := "", pos := Vec3.zero, hue := 0, sat := 0,
    color := Vec3.zero, glowColor := Vec3.zero, radiusInit := 0, radius := 0,
    glowRadius := 0, idealCameraDist := 0, totalTracks := 0, isSelected := false,
    albumOrbits := [] }

/-- `app.artistNodes[i].isSelected = b`. -/
def setSelectedFlag (b : Bool) : ℕ → List ArtistNode → List ArtistNode
  | _, [] => []
  | 0, n :: rest => { n with isSelected := b } :: rest
  | i + 1, n :: rest => n :: setSelectedFlag b i rest

/-- Result of one input-handling branch: the updated node list, the updated
selection state, and the list of `flyTo(target, dist)` calls issued. -/
structure ClickOutcome where
  nodes : List ArtistNode
  st : SelState
  flys : List (Vec3 × ℚ)
deriving Repr

/-- The star-click resolution branch of `handleEvents` (main.cpp lines
2695-2712): given the result `hit` of `hitTestStar`.  Clicking the selected
star again deselects back to the galaxy (with `flyTo(vec3(0), maxR * 1.5f)`);
clicking a different star selects it (with
`flyTo(nodes[hit].pos, nodes[hit].idealCameraDist)`). -/
def resolveStarClick (p : Prims) (nodes : List ArtistNode) (st : SelState)
    (hit : ℤ) : ClickOutcome :=
  if 0 ≤ hit then
    let nodes1 := if 0 ≤ st.selectedArtist
      then setSelectedFlag false st.selectedArtist.toNat nodes else nodes
    if hit = st.selectedArtist then
      { nodes := nodes1
        st := { st with selectedArtist := -1, selectedAlbum := -1,
                        currentLevel := G_ALPHA_LEVEL, autoRotate := true }
        flys := [(Vec3.zero, maxStarDist p nodes1 * 1.5)] }
    else
      let nodes2 := setSelectedFlag true hit.toNat nodes1
      let n := nodes2.getD hit.toNat defaultArtistNode
      { nodes := nodes2
        st := { st with selectedArtist := hit, selectedAlbum := -1,
                        currentLevel := G_ARTIST_LEVEL, autoRotate := false }
        flys := [(n.pos, n.idealCameraDist)] }
  else { nodes := nodes, st := st, flys := [] }

/-- The `SDLK_ESCAPE` branch of `handleEvents` (main.cpp lines 2733-2743).
Note: the album branch clears `selectedAlbum` and sets the level WITHOUT
issuing any `flyTo`. -/
def escapeBack (p : Prims) (nodes : List ArtistNode) (st : SelState) : ClickOutcome :=
  if 0 ≤ st.selectedAlbum then
    { nodes := nodes
      st := { st with selectedAlbum := -1, currentLevel := G_ARTIST_LEVEL }
      flys := [] }
  else if 0 ≤ st.selectedArtist then
    let nodes1 := setSelectedFlag false st.selectedArtist.toNat nodes
    { nodes := nodes1
      st := { st with selectedArtist := -1, currentLevel := G_ALPHA_LEVEL,
                      autoRotate := true }
      flys := [(Vec3.zero, maxStarDist p nodes1 * 1.5)] }
  else
    { nodes := nodes, st := { st with running := false }, flys := [] }

/-- The gamepad `SDL_CONTROLLER_BUTTON_B` branch of `handleEvents`
(main.cpp lines 2806-2822).  Unlike Escape, its album branch DOES issue
`flyTo(star.pos, star.idealCameraDist)`; unlike Escape, with nothing
selected it does nothing (it does not quit). -/
def gamepadBBack (p : Prims) (nodes : List ArtistNode) (st : SelState) : ClickOutcome :=
  if 0 ≤ st.selectedAlbum then
    let star := nodes.getD st.selectedArtist.toNat defaultArtistNode
    { nodes := nodes
      st := { st with selectedAlbum := -1, currentLevel := G_ARTIST_LEVEL }
      flys := [(star.pos, star.idealCameraDist)] }
  else if 0 ≤ st.selectedArtist then
    let nodes1 := setSelectedFlag false st.selectedArtist.toNat nodes
    { nodes := nodes1
      st := { st with selectedArtist := -1, currentLevel := G_ALPHA_LEVEL,
                      autoRotate := true }
      flys := [(Vec3.zero, maxStarDist p nodes1 * 1.5)] }
  else
    { nodes := nodes, st := st, flys := [] }

-- ============================================================
-- Library scanner (music_data.h lines 129-237, scanMusicLibrary)
-- ============================================================

/-- The metadata TagLib yields for one file when `!f.isNull() && f.tag()`
(music_data.h lines 144-157); `audioLen` is `audioProperties()->
lengthInSeconds()` when audio properties are available. -/
structure RawTag where
  title : String
  artist : String
  album : String
  genre : String
  trackNumber : ℤ
  year : ℤ
  audioLen : Option ℚ
deriving DecidableEq, Repr

/-- One audio file found by the directory walk: its path, the path's stem
(`fs::path(filePath).stem()`), its parent folder name
(`fs::path(filePath).parent_path().filename()`), and the TagLib read result
(`none` models `f.isNull() || !f.tag()`). -/
structure RawFile where
  filePath : String
  stem : String
  parentName : String
  tag : Option RawTag
deriving DecidableEq, Repr

/-- The per-file track construction of `scanMusicLibrary` (music_data.h
lines 140-171): read tags, then apply the fallbacks - file stem for an
empty title, parent folder name for an empty artist/album, 180 seconds
for a non-positive duration - and copy artist to albumArtist. -/
def normalizeTrack (f : RawFile) : TrackData :=
  let t0 : TrackData :=
    { filePath := f.filePath, id := "", title := "", artist := "", album := "",
      albumArtist := "", trackNumber := 0, duration := 0, year := 0, genre := "" }
  let t1 := match f.tag with
    | none => t0
    | some tag =>
        { t0 with title := tag.title, artist := tag.artist, album := tag.album,
                  trackNumber := tag.trackNumber, year := tag.year,
                  genre := tag.genre,
                  duration := match tag.audioLen with | some d => d | none => 0 }
  let t2 := { t1 with title := if t1.title = "" then f.stem else t1.title }
  let t3 := { t2 with artist := if t2.artist = "" then f.parentName else t2.artist }
  let t4 := { t3 with album := if t3.album = "" then f.parentName else t3.album }
  let t5 := { t4 with duration := if t4.duration ≤ 0 then 180 else t4.duration }
  { t5 with albumArtist := t5.artist }

/-- A `std::map` over string keys as a key-sorted association list. -/
def insertAssoc {α : Type} (k : String) (upd : α → α) (dflt : α) :
    List (String × α) → List (String × α)
  | [] => [(k, upd dflt)]
  | (k1, v) :: rest =>
      if k = k1 then (k1, upd v) :: rest
      else if k < k1 then (k, upd dflt) :: (k1, v) :: rest
      else (k1, v) :: insertAssoc k upd dflt rest

/-- `AlbumData` default-constructed by `std::map::operator[]`. -/
def emptyAlbum : AlbumData := { name := "", artist := "", id := "", year := 0, tracks := [] }

/-- The per-track map update (music_data.h lines 174-177): overwrite the
album's name, artist and year, and append the track. -/
def updateAlbum (t : TrackData) (a : AlbumData) : AlbumData :=
  { a with name := t.album, artist := t.albumArtist, year := t.year,
           tracks := a.tracks ++ [t] }

/-- `artistAlbums[track.albumArtist][track.album]` update for one track. -/
def addTrack (m : List (String × List (String × AlbumData))) (t : TrackData) :
    List (String × List (String × AlbumData)) :=
  insertAssoc t.albumArtist (insertAssoc t.album (updateAlbum t) emptyAlbum) [] m

/-- The file loop of `scanMusicLibrary` building the nested
`artistAlbums` map (music_data.h lines 137-183). -/
def groupFiles (files : List RawFile) : List (String × List (String × AlbumData)) :=
  files.foldl (fun m f => addTrack m (normalizeTrack f)) []

/-- Insertion into a list sorted by the strict comparator `lt`
(modelling the effect of `std::sort`). -/
def insertSorted {α : Type} (lt : α → α → Bool) (a : α) : List α → List α
  | [] => [a]
  | b :: rest => if lt a b then a :: b :: rest else b :: insertSorted lt a rest

/-- Sort by a strict comparator (the postcondition of `std::sort`). -/
def sortBy {α : Type} (lt : α → α → Bool) (l : List α) : List α :=
  l.foldr (insertSorted lt) []

/-- The genre tally of one artist (music_data.h lines 201-204): counts of
each non-empty genre other than the literal string Unknown. -/
def genreCounts (albums : List AlbumData) : List (String × ℕ) :=
  albums.foldl
    (fun m alb => alb.tracks.foldl
      (fun m2 t =>
        if t.genre ≠ "" ∧ t.genre ≠ "Unknown"
        then insertAssoc t.genre (fun n => n + 1) 0 m2 else m2) m)
    []

/-- `std::max_element` with a `<` projection on the counts: the first
element whose count no later element strictly exceeds. -/
def maxCountElem : List (String × ℕ) → Option (String × ℕ)
  | [] => none
  | x :: rest => some (rest.foldl (fun best y => if best.2 < y.2 then y else best) x)

/-- Primary genre selection (music_data.h lines 200-210). -/
def primaryGenreOf (albums : List AlbumData) : String :=
  match maxCountElem (genreCounts albums) with
  | none => "Unknown"
  | some g => g.1

/-- Building one `ArtistData` from its album map entry (music_data.h lines
188-226): sort each album's tracks by track number, accumulate the track
count, pick the primary genre, and sort the albums by year.  Cover-art
extraction (file I/O) is outside the model. -/
def buildArtistData (artistName : String) (albums : List (String × AlbumData)) :
    ArtistData :=
  let albumList := albums.map fun kv =>
    { kv.2 with tracks := sortBy (fun a b => decide (a.trackNumber < b.trackNumber)) kv.2.tracks }
  { name := artistName
    primaryGenre := primaryGenreOf albumList
    albums := sortBy (fun a b => decide (a.year < b.year)) albumList
    totalTracks := albumList.foldl (fun n a => n + (a.tracks.length : ℤ)) 0 }

/-- `scanMusicLibrary` (music_data.h lines 129-237) over the list of audio
files the directory walk found (the walk itself and TagLib parsing are I/O;
their combined result is the `RawFile` list).  Artists are sorted by name
at the end. -/
def scanMusicLibrary (files : List RawFile) : MusicLibrary :=
  let m := groupFiles files
  let artists := m.map fun kv => buildArtistData kv.1 kv.2
  { artists := sortBy (fun a b => decide (a.name < b.name)) artists
    totalTracks := artists.foldl (fun n a => n + a.totalTracks) 0
    totalAlbums := artists.foldl (fun n a => n + (a.albums.length : ℤ)) 0 }

-- Concrete instances used by the theorems below

/-- A camera below its target distance, used to exhibit the overshoot. -/
def cam0 : Camera := { initCamera with orbitDist := 0, targetOrbitDist := 1, autoRotate := false }

/-- Sample names agreeing at positions 1 and 2. -/
def sampleNameA : String := "abc"

/-- A different name agreeing with `sampleNameA` at positions 1 and 2. -/
def sampleNameB : String := "xbcd"

/-- A concrete tilted track moon. -/
def cexTrack : TrackOrbit :=
  { radius := 1, angle := 0, speed := 0, size := 1, name := "", filePath := "",
    duration := 0, tiltX := 1, tiltZ := 0 }

/-- A concrete album orbit carrying the moon. -/
def cexAlbum : AlbumOrbit :=
  { radius := 1, angle := 0, speed := 0, planetSize := 1, numTracks := 0,
    name := "", artistIndex := 0, albumIndex := 0, tracks := [cexTrack] }

/-- A library artist with two single-track albums, one track of duration 0. -/
def sampleTrack0 : TrackData :=
  { filePath := "", id := "", title := "", artist := "", album := "",
    albumArtist := "", trackNumber := 1, duration := 0, year := 0, genre := "" }

/-- A one-track album holding `sampleTrack0`. -/
def sampleAlbum0 : AlbumData :=
  { name := "", artist := "", id := "", year := 0, tracks := [sampleTrack0] }

/-- A two-album artist used to exercise the orbit layout concretely. -/
def sampleArtist0 : ArtistData :=
  { name := "", primaryGenre := "", albums := [sampleAlbum0, sampleAlbum0],
    totalTracks := 2 }

/-- A default album orbit value for out-of-range reads. -/
def defaultAlbumOrbit : AlbumOrbit :=
  { radius := 0, angle := 0, speed := 0, planetSize := 0, numTracks := 0,
    name := "", artistIndex := 0, albumIndex := 0, tracks := [] }

/-- A default track orbit value for out-of-range reads. -/
def defaultTrackOrbit : TrackOrbit :=
  { radius := 0, angle := 0, speed := 0, size := 0, name := "", filePath := "",
    duration := 0, tiltX := 0, tiltZ := 0 }

/-- The first album orbit of the concrete artist layout. -/
def sampleOrbit0 : AlbumOrbit :=
  ((computeAlbumOrbits prims0 1 sampleArtist0 0).1).getD 0 defaultAlbumOrbit

/-- The first (zero-duration) moon of that orbit. -/
def sampleMoon0 : TrackOrbit := sampleOrbit0.tracks.getD 0 defaultTrackOrbit

/-- A one-star scene for the concrete selection transitions. -/
def backNodes : List ArtistNode := [defaultArtistNode]

/-- Selection state with star 0 selected. -/
def stStar0 : SelState :=
  { selectedArtist := 0, selectedAlbum := -1, currentLevel := G_ARTIST_LEVEL,
    autoRotate := false, running := true }

/-- Selection state at the Track level (star 0 and album 0 selected). -/
def stTrack0 : SelState :=
  { selectedArtist := 0, selectedAlbum := 0, currentLevel := G_TRACK_LEVEL,
    autoRotate := false, running := true }

/-- The normalized-track postcondition of the scanner. -/
def goodTrack (t : TrackData) : Prop :=
  t.title ≠ "" ∧ t.artist ≠ "" ∧ t.album ≠ "" ∧ 0 < t.duration

/-- A concrete tagless audio file. -/
def sampleRawFile : RawFile :=
  { filePath := "", stem := "track01", parentName := "AlbumX", tag := none }

/-- Default values for concrete out-of-range reads. -/
def defaultArtistData : ArtistData :=
  { name := "", primaryGenre := "", albums := [], totalTracks := 0 }

/-- Default track value for concrete out-of-range reads. -/
def defaultTrackData : TrackData :=
  { filePath := "", id := "", title := "", artist := "", album := "",
    albumArtist := "", trackNumber := 0, duration := 0, year := 0, genre := "" }

/-- The single artist the one-file scan produces. -/
def scannedArtist0 : ArtistData :=
  (scanMusicLibrary [sampleRawFile]).artists.getD 0 defaultArtistData

/-- Its single album. -/
def scannedAlbum0 : AlbumData := scannedArtist0.albums.getD 0 emptyAlbum

/-- Its single track. -/
def scannedTrack0 : TrackData := scannedAlbum0.tracks.getD 0 defaultTrackData

-- ============================================================
-- Theorems
-- ============================================================

namespace Camera

/-- Unfolding lemma for the orbit distance written by `update`. -/
theorem update_orbitDist (p : Prims) (dt : ℚ) (c : Camera) :
    (update p dt c).orbitDist = c.orbitDist + (c.targetOrbitDist - c.orbitDist) * 4 * dt :=
  rfl

/-- `update` never writes `targetOrbitDist`. -/
theorem update_targetOrbitDist (p : Prims) (dt : ℚ) (c : Camera) :
    (update p dt c).targetOrbitDist = c.targetOrbitDist :=
  rfl

/-- `update(0)` is the identity on the camera state. -/
theorem update_zero (p : Prims) (c : Camera) : update p 0 c = c := by
  have hmin : min (4 * (0 : ℚ)) 1 = 0 := by norm_num
  cases c with
  | mk position target up targetPos targetLookAt fov nearPlane farPlane aspect
      orbitYaw orbitPitch orbitDist targetOrbitDist autoRotateSpeed autoRotate =>
    simp only [update, hmin, Vec3.add, Vec3.sub, Vec3.scale]
    cases autoRotate <;> simp

end Camera

/-- C8: `Camera::flyTo(point, distance)` writes only the two target fields
`targetLookAt` and `targetOrbitDist`; position, look-at target, orbit
distance, yaw, pitch, autoRotate and every other field are unchanged, so the
camera does not move instantaneously. -/
theorem flyTo_frame_condition (c : Camera) (pos : Vec3) (dist : ℚ) :
    (c.flyTo pos dist).targetLookAt = pos ∧
    (c.flyTo pos dist).targetOrbitDist = dist ∧
    (c.flyTo pos dist).position = c.position ∧
    (c.flyTo pos dist).target = c.target ∧
    (c.flyTo pos dist).up = c.up ∧
    (c.flyTo pos dist).targetPos = c.targetPos ∧
    (c.flyTo pos dist).fov = c.fov ∧
    (c.flyTo pos dist).nearPlane = c.nearPlane ∧
    (c.flyTo pos dist).farPlane = c.farPlane ∧
    (c.flyTo pos dist).aspect = c.aspect ∧
    (c.flyTo pos dist).orbitYaw = c.orbitYaw ∧
    (c.flyTo pos dist).orbitPitch = c.orbitPitch ∧
    (c.flyTo pos dist).orbitDist = c.orbitDist ∧
    (c.flyTo pos dist).autoRotateSpeed = c.autoRotateSpeed ∧
    (c.flyTo pos dist).autoRotate = c.autoRotate :=
  ⟨rfl, rfl, rfl, rfl, rfl, rfl, rfl, rfl, rfl, rfl, rfl, rfl, rfl, rfl, rfl⟩

/-- C4 (counterexample): a single `update(dt)` with dt = 1 moves `orbitDist`
from 0 past the target 1, to 4 - the `orbitDist` blend factor `4·dt` is NOT
clamped to `min(4·dt, 1)`, so a large dt spike overshoots the target. -/
theorem camera_update_overshoot_cex :
    cam0.orbitDist < cam0.targetOrbitDist ∧
    cam0.targetOrbitDist < (Camera.update prims0 1 cam0).orbitDist ∧
    (Camera.update prims0 1 cam0).orbitDist = 4 := by
  refine ⟨by norm_num [cam0, initCamera], ?_, ?_⟩ <;>
    rw [Camera.update_orbitDist] <;> norm_num [cam0, initCamera]

/-- Repeated `update` never changes `targetOrbitDist`. -/
theorem iterate_update_targetOrbitDist (p : Prims) (dt : ℚ) (c : Camera) :
    ∀ n : ℕ, ((Camera.update p dt)^[n] c).targetOrbitDist = c.targetOrbitDist := by
  intro n
  induction n with
  | zero => rfl
  | succ n ih => rw [Function.iterate_succ_apply', Camera.update_targetOrbitDist, ih]

/-- C4 (amended): `update(0)` is the identity and the position / look-at
blend factors are clamped to `min(4·dt, 1)`, but the `orbitDist` blend factor
is the UNCLAMPED `4·dt`: the gap to `targetOrbitDist` contracts by exactly
`(1 − 4·dt)` per call, so a single large dt (dt > 1/4) overshoots the target
(see the counterexample), while for `4·dt ≤ 1` a step never moves `orbitDist`
past `targetOrbitDist` and repeated constant-dt updates approach it
monotonically. -/
theorem camera_update_amended (p : Prims) (c : Camera) (dt : ℚ) (hdt : 0 ≤ dt) :
    Camera.update p 0 c = c
    ∧ (Camera.update p dt c).targetOrbitDist = c.targetOrbitDist
    ∧ (c.targetOrbitDist - (Camera.update p dt c).orbitDist
        = (c.targetOrbitDist - c.orbitDist) * (1 - 4 * dt))
    ∧ (4 * dt ≤ 1 →
        (c.orbitDist ≤ c.targetOrbitDist →
          c.orbitDist ≤ (Camera.update p dt c).orbitDist ∧
          (Camera.update p dt c).orbitDist ≤ c.targetOrbitDist) ∧
        (c.targetOrbitDist ≤ c.orbitDist →
          (Camera.update p dt c).orbitDist ≤ c.orbitDist ∧
          c.targetOrbitDist ≤ (Camera.update p dt c).orbitDist))
    ∧ (∀ n : ℕ, c.targetOrbitDist - ((Camera.update p dt)^[n] c).orbitDist
        = (1 - 4 * dt) ^ n * (c.targetOrbitDist - c.orbitDist))
    ∧ ((Camera.update p dt c).position
        = c.position.add (((Camera.desiredPosOf p dt c).sub c.position).scale (min (4 * dt) 1))
        ∧ 0 ≤ min (4 * dt) 1 ∧ min (4 * dt) 1 ≤ 1) := by
  refine ⟨Camera.update_zero p c, rfl, by rw [Camera.update_orbitDist]; ring, ?_, ?_, rfl, ?_, min_le_right _ _⟩
  · intro hle
    rw [Camera.update_orbitDist]
    constructor <;> intro hcmp <;> constructor <;> nlinarith
  · intro n
    induction n with
    | zero => simp
    | succ n ih =>
        rw [Function.iterate_succ_apply', Camera.update_orbitDist,
            iterate_update_targetOrbitDist]
        have expand : c.targetOrbitDist -
            (((Camera.update p dt)^[n] c).orbitDist +
              (c.targetOrbitDist - ((Camera.update p dt)^[n] c).orbitDist) * 4 * dt)
            = (c.targetOrbitDist - ((Camera.update p dt)^[n] c).orbitDist) * (1 - 4 * dt) := by
          ring
        rw [expand, ih, pow_succ]
        ring
  · exact le_min (by nlinarith) (by norm_num)

/-- C4 witness: the amended theorem applied to the concrete camera `cam0`
with dt = 1/8. -/
theorem camera_update_amended_witness :
    Camera.update prims0 0 cam0 = cam0 :=
  (camera_update_amended prims0 cam0 (1/8) (by norm_num)).1

/-- C10: `computeArtistColor` reads only the characters at positions 1 and 2
of the artist name: two names of length at least 3 agreeing there receive
identical hue, saturation, colors and initial radius, and any two names of
length below 3 receive the one fixed fallback result (both characters are
the space fallback). -/
theorem artistColor_ignores_other_chars (p : Prims) (n1 n2 : String) :
    (3 ≤ n1.length → 3 ≤ n2.length →
      n1.data.getD 1 (Char.ofNat 32) = n2.data.getD 1 (Char.ofNat 32) →
      n1.data.getD 2 (Char.ofNat 32) = n2.data.getD 2 (Char.ofNat 32) →
      computeArtistColor p n1 = computeArtistColor p n2)
    ∧ (n1.length < 3 → n2.length < 3 →
      computeArtistColor p n1 = computeArtistColor p n2) := by
  constructor
  · intro h1 h2 e1 e2
    simp only [computeArtistColor, extractChar, if_pos h1, if_pos h2, e1, e2]
  · intro h1 h2
    simp only [computeArtistColor, extractChar,
      if_neg (show ¬ 3 ≤ n1.length by omega), if_neg (show ¬ 3 ≤ n2.length by omega)]

/-- C10 witness: the two concrete names differ at position 0 and in length
yet receive the same color data. -/
theorem artistColor_ignores_other_chars_witness :
    computeArtistColor prims0 sampleNameA = computeArtistColor prims0 sampleNameB :=
  (artistColor_ignores_other_chars prims0 sampleNameA sampleNameB).1
    (by decide) (by decide) (by decide) (by decide)

/-- C6: the moon position used by `hitTestPlanetMoon` (which applies the
orbital tilt via `getMoonPos`) and the position the camera flies to when the
moon is clicked (main.cpp line 2673, which omits the tilt) DIFFER at the same
elapsed time whenever the tilt contribution to the y coordinate is nonzero;
the code contradicts the spec requirement that the tilt rotation be applied
consistently wherever the position is recomputed (every other call site -
rendering, hit-testing, recenterToNowPlaying - uses `getMoonPos`). -/
theorem moonPos_hitTest_ne_clickFly (p : Prims) (starPos : Vec3) (o : AlbumOrbit)
    (t : TrackOrbit) (elapsed : ℚ)
    (h : p.cosf (t.angle + elapsed * t.speed) * t.radius * p.sinf t.tiltX
       + p.sinf (t.angle + elapsed * t.speed) * t.radius * p.sinf t.tiltZ ≠ 0) :
    hitTestMoonPos p starPos o t elapsed ≠ clickFlyMoonPos p starPos o t elapsed := by
  intro heq
  apply h
  have hy := congrArg Vec3.y heq
  simp only [hitTestMoonPos, clickFlyMoonPos, getMoonPos, albumPosAt, Vec3.add] at hy
  linarith

/-- C6 witness: with the concrete primitives, the hit-tested position and the
flown-to position of the tilted moon differ at elapsed time 0. -/
theorem moonPos_hitTest_ne_clickFly_witness :
    hitTestMoonPos prims0 Vec3.zero cexAlbum cexTrack 0
      ≠ clickFlyMoonPos prims0 Vec3.zero cexAlbum cexTrack 0 :=
  moonPos_hitTest_ne_clickFly prims0 Vec3.zero cexAlbum cexTrack 0
    (by norm_num [prims0, cexTrack])

/-- A cached genre hits the map and leaves the state unchanged. -/
theorem getGenreAngle_of_cached (st : GenreState) (g : String) (a : ℚ)
    (h : st.angles g = some a) : getGenreAngle st g = (a, st) := by
  simp [getGenreAngle, h]

/-- After a lookup the genre is cached with the returned angle. -/
theorem getGenreAngle_cache_post (st : GenreState) (g : String) :
    ((getGenreAngle st g).2).angles g = some (getGenreAngle st g).1 := by
  cases h : st.angles g with
  | some a => simp [getGenreAngle, h]
  | none => simp [getGenreAngle, h]

/-- A lookup never removes or changes existing cache entries. -/
theorem getGenreAngle_mono (st : GenreState) (g g' : String) (a' : ℚ)
    (h : st.angles g' = some a') : ((getGenreAngle st g).2).angles g' = some a' := by
  cases h2 : st.angles g with
  | some a => simpa [getGenreAngle, h2] using h
  | none =>
      simp only [getGenreAngle, h2]
      by_cases he : g' = g
      · subst he; rw [h] at h2; cases h2
      · simpa [he] using h

/-- The artist loop never removes or changes existing cache entries. -/
theorem buildNodesAux_mono (p : Prims) (g : String) (a : ℚ) :
    ∀ (arts : List ArtistData) (st : GenreState) (i : ℕ),
      st.angles g = some a → ((buildNodesAux p st i arts).2).angles g = some a := by
  intro arts
  induction arts with
  | nil => intro st i h; simpa [buildNodesAux] using h
  | cons x rest ih =>
      intro st i h
      simp only [buildNodesAux, buildArtistNode]
      exact ih _ _ (getGenreAngle_mono _ _ _ _ h)

/-- Replaying the artist loop from its own final genre-cache state
reproduces both the node list and the state. -/
theorem buildNodesAux_idem (p : Prims) :
    ∀ (arts : List ArtistData) (st : GenreState) (i : ℕ),
      buildNodesAux p ((buildNodesAux p st i arts).2) i arts = buildNodesAux p st i arts := by
  intro arts
  induction arts with
  | nil => intro st i; rfl
  | cons x rest ih =>
      intro st i
      have hpost := getGenreAngle_cache_post st x.primaryGenre
      have hmem := buildNodesAux_mono p x.primaryGenre _ rest
        (getGenreAngle st x.primaryGenre).2 (i + 1) hpost
      have hcached := getGenreAngle_of_cached _ _ _ hmem
      simp only [buildNodesAux, buildArtistNode, hcached, ih]

/-- C1: scene building is idempotent across the never-reset process-global
genre-angle cache: running `buildScene` a second time in succession on the
same `MusicLibrary`, starting from the cache state the first run left behind,
yields the identical scene graph (all star positions, hues, colors, orbit
radii, angles, speeds and sizes) and the identical cache state - the second
run's genre lookups all hit the entries the first run created. -/
theorem buildScene_idempotent (p : Prims) (st : GenreState) (lib : MusicLibrary) :
    buildScene p ((buildScene p st lib).2) lib = buildScene p st lib := by
  unfold buildScene
  simp only [buildNodesAux_idem]

/-- Every album footprint is at least the 0.2 floor. -/
theorem albumFootprint_ge (n : ℕ) : (0.2 : ℚ) ≤ albumFootprint n := le_max_right _ _

/-- Every moon size is at least the 0.04 floor. -/
theorem moonSizeOf_ge (d : ℚ) : (0.04 : ℚ) ≤ moonSizeOf d := le_max_left _ _

/-- Invariants of the track loop: every produced moon orbits strictly outside
the running start radius, carries the floored size and guarded speed
formulas, and the radii strictly increase along the list. -/
theorem trackOrbitsAux_spec (p : Prims) :
    ∀ (tracks : List TrackData) (r : ℚ) (ti : ℕ),
      (∀ t ∈ trackOrbitsAux p r ti tracks,
          r < t.radius ∧ 0.04 ≤ t.size ∧ t.size = moonSizeOf t.duration
            ∧ t.speed = moonSpeedOf t.duration)
      ∧ List.Chain' (fun s t => s.radius < t.radius) (trackOrbitsAux p r ti tracks) := by
  intro tracks
  induction tracks with
  | nil => intro r ti; simp [trackOrbitsAux]
  | cons t rest ih =>
      intro r ti
      have hm : (0.04 : ℚ) ≤ moonSizeOf t.duration := moonSizeOf_ge t.duration
      obtain ⟨ihAll, ihChain⟩ :=
        ih (r + moonSizeOf t.duration * 2 + moonSizeOf t.duration * 2) (ti + 1)
      constructor
      · intro x hx
        simp only [trackOrbitsAux, List.mem_cons] at hx
        rcases hx with hx | hx
        · subst hx
          exact ⟨by simp; linarith, by simp [hm], rfl, rfl⟩
        · obtain ⟨hr, hs, hsz, hsp⟩ := ihAll x hx
          exact ⟨by linarith, hs, hsz, hsp⟩
      · simp only [trackOrbitsAux]
        rw [List.chain'_cons']
        refine ⟨?_, ihChain⟩
        intro b hb
        have hbmem := List.mem_of_mem_head? hb
        have := (ihAll b hbmem).1
        simp only
        linarith

/-- Invariants of the album loop: every produced orbit sits at least its own
footprint beyond the incoming offset, planet sizes respect the 0.15 floor,
the per-album track invariants hold, consecutive album radii are separated by
both adjacent footprints, and the final offset bounds the start. -/
theorem albumOrbitsAux_spec (p : Prims) (ai : ℕ) :
    ∀ (albums : List AlbumData) (off : ℚ) (idx : ℕ),
      (∀ o ∈ (albumOrbitsAux p ai off idx albums).1,
          off + albumFootprint o.numTracks ≤ o.radius
        ∧ 0.15 ≤ o.planetSize
        ∧ (∀ t ∈ o.tracks, o.planetSize * 3 < t.radius ∧ 0.04 ≤ t.size
             ∧ t.size = moonSizeOf t.duration ∧ t.speed = moonSpeedOf t.duration)
        ∧ List.Chain' (fun s t => s.radius < t.radius) o.tracks)
      ∧ List.Chain' (fun a b =>
          a.radius + albumFootprint a.numTracks + albumFootprint b.numTracks ≤ b.radius)
          (albumOrbitsAux p ai off idx albums).1
      ∧ off ≤ (albumOrbitsAux p ai off idx albums).2 := by
  intro albums
  induction albums with
  | nil => intro off idx; simp [albumOrbitsAux]
  | cons album rest ih =>
      intro off idx
      have hamt := albumFootprint_ge album.tracks.length
      obtain ⟨ihAll, ihChain, ihLe⟩ :=
        ih (off + albumFootprint album.tracks.length + albumFootprint album.tracks.length)
          (idx + 1)
      obtain ⟨trAll, trChain⟩ :=
        trackOrbitsAux_spec p album.tracks
          (max 0.15 (0.1 + p.sqrtf (album.tracks.length : ℚ) * 0.06) * 3) 0
      refine ⟨?_, ?_, ?_⟩
      · intro o ho
        simp only [albumOrbitsAux, List.mem_cons] at ho
        rcases ho with ho | ho
        · subst ho
          refine ⟨by simp, le_max_left _ _, ?_, trChain⟩
          intro t ht
          exact trAll t ht
        · obtain ⟨hr, hps, htr, hch⟩ := ihAll o ho
          exact ⟨by linarith, hps, htr, hch⟩
      · simp only [albumOrbitsAux]
        rw [List.chain'_cons']
        refine ⟨?_, ihChain⟩
        intro b hb
        have hbmem := List.mem_of_mem_head? hb
        have := (ihAll b hbmem).1
        simp only
        linarith
      · simp only [albumOrbitsAux]
        linarith

/-- C2: for any artist node data with a non-negative initial star radius, the
album orbit radii produced by `computeAlbumOrbits` strictly increase with
album index, consecutive radii separated by at least the footprint
`max(trackCount * 0.065, 0.2)` of each of the two albums; within every album
the track orbit radii strictly increase with track index; and every orbit
radius, planet size, track orbit radius and moon size is strictly positive. -/
theorem computeAlbumOrbits_radii (p : Prims) (ad : ArtistData) (ai : ℕ)
    (radiusInit : ℚ) (h : 0 ≤ radiusInit) :
    List.Chain' (fun a b =>
        a.radius + albumFootprint b.numTracks ≤ b.radius ∧
        a.radius + albumFootprint a.numTracks ≤ b.radius ∧
        a.radius < b.radius) (computeAlbumOrbits p radiusInit ad ai).1
    ∧ ∀ o ∈ (computeAlbumOrbits p radiusInit ad ai).1,
        0 < o.radius ∧ 0 < o.planetSize
        ∧ List.Chain' (fun s t => s.radius < t.radius) o.tracks
        ∧ ∀ t ∈ o.tracks, 0 < t.radius ∧ 0 < t.size := by
  have h125 : 0 ≤ radiusInit * 1.25 := by nlinarith
  obtain ⟨hall, hchain, -⟩ := albumOrbitsAux_spec p ai ad.albums (radiusInit * 1.25) 0
  constructor
  · refine List.Chain'.imp ?_ hchain
    intro a b hab
    have hfa := albumFootprint_ge a.numTracks
    have hfb := albumFootprint_ge b.numTracks
    exact ⟨by linarith, by linarith, by linarith⟩
  · intro o ho
    obtain ⟨hrad, hps, htr, hch⟩ := hall o ho
    have hf := albumFootprint_ge o.numTracks
    refine ⟨by linarith, by linarith, hch, ?_⟩
    intro t ht
    obtain ⟨htr1, hts, -, -⟩ := htr t ht
    exact ⟨by linarith, by linarith⟩

/-- C2 witness: the monotone-separated radii chain on the concrete artist. -/
theorem computeAlbumOrbits_radii_witness :
    List.Chain' (fun a b =>
        a.radius + albumFootprint b.numTracks ≤ b.radius ∧
        a.radius + albumFootprint a.numTracks ≤ b.radius ∧
        a.radius < b.radius) (computeAlbumOrbits prims0 1 sampleArtist0 0).1 :=
  (computeAlbumOrbits_radii prims0 sampleArtist0 0 1 (by norm_num)).1

/-- C7: every track moon of every album orbit carries exactly the floored
size `max(0.04, 0.02 + 0.03 * duration/300)` - so a zero-duration track gets
exactly the 0.04 floor, not zero - and the speed `2π / (max(duration,60) *
0.35)`, whose denominator the duration floor keeps at or above 21, making
the speed finite and strictly positive. -/
theorem trackOrbit_zero_duration_guard (p : Prims) (ad : ArtistData) (ai : ℕ)
    (radiusInit : ℚ) (o : AlbumOrbit) (t : TrackOrbit)
    (ho : o ∈ (computeAlbumOrbits p radiusInit ad ai).1) (ht : t ∈ o.tracks)
    (_hd : 0 ≤ t.duration) :
    t.size = max 0.04 (0.02 + 0.03 * (t.duration / 300))
    ∧ (t.duration = 0 → t.size = 0.04)
    ∧ t.speed = (2 * mPI) / (max t.duration 60 * 0.35)
    ∧ (21 : ℚ) ≤ max t.duration 60 * 0.35
    ∧ 0 < t.speed := by
  obtain ⟨hall, -, -⟩ := albumOrbitsAux_spec p ai ad.albums (radiusInit * 1.25) 0
  obtain ⟨-, -, htr, -⟩ := hall o ho
  obtain ⟨-, -, hsize, hspeed⟩ := htr t ht
  have h60 : (60 : ℚ) ≤ max t.duration 60 := le_max_right _ _
  have hden : (21 : ℚ) ≤ max t.duration 60 * 0.35 := by linarith
  have hpi : (0 : ℚ) < 2 * mPI := by norm_num [mPI]
  refine ⟨by simpa [moonSizeOf] using hsize, ?_, by simpa [moonSpeedOf] using hspeed, hden, ?_⟩
  · intro h0
    rw [hsize, moonSizeOf, h0]
    norm_num
  · rw [hspeed, moonSpeedOf]
    exact div_pos hpi (by linarith)

/-- An in-range `getD` read is a member of the list. -/
theorem getD_mem {α : Type} : ∀ (l : List α) (n : ℕ) (d : α), n < l.length → l.getD n d ∈ l := by
  intro l
  induction l with
  | nil => intro n d h; simp at h
  | cons a l ih =>
      intro n d h
      cases n with
      | zero => simp [List.getD]
      | succ n =>
          simp only [List.getD_cons_succ]
          exact List.mem_cons_of_mem a (ih n d (by simpa using h))

/-- The track loop yields one orbit per track. -/
theorem trackOrbitsAux_length (p : Prims) :
    ∀ (tracks : List TrackData) (r : ℚ) (ti : ℕ),
      (trackOrbitsAux p r ti tracks).length = tracks.length := by
  intro tracks
  induction tracks with
  | nil => intro r ti; rfl
  | cons t rest ih => intro r ti; simp [trackOrbitsAux, ih]

/-- The album loop yields one orbit per album. -/
theorem albumOrbitsAux_length (p : Prims) (ai : ℕ) :
    ∀ (albums : List AlbumData) (off : ℚ) (idx : ℕ),
      (albumOrbitsAux p ai off idx albums).1.length = albums.length := by
  intro albums
  induction albums with
  | nil => intro off idx; rfl
  | cons album rest ih => intro off idx; simp [albumOrbitsAux, ih]

/-- C7 witness: the concrete zero-duration moon receives exactly the 0.04
floor size. -/
theorem trackOrbit_zero_duration_guard_witness : sampleMoon0.size = 0.04 := by
  have hol : 0 < (computeAlbumOrbits prims0 1 sampleArtist0 0).1.length := by
    simp [computeAlbumOrbits, albumOrbitsAux_length, sampleArtist0]
  have htl : 0 < sampleOrbit0.tracks.length := by
    simp [sampleOrbit0, computeAlbumOrbits, albumOrbitsAux, sampleArtist0,
      trackOrbitsAux_length, sampleAlbum0]
  have h := trackOrbit_zero_duration_guard prims0 sampleArtist0 0 1 sampleOrbit0 sampleMoon0
    (getD_mem _ 0 _ hol) (getD_mem _ 0 _ htl) (le_of_eq (by rfl))
  exact h.2.1 (by rfl)

/-- Setting a selection flag does not change the list length. -/
theorem setSelectedFlag_length (b : Bool) :
    ∀ (i : ℕ) (nodes : List ArtistNode), (setSelectedFlag b i nodes).length = nodes.length := by
  intro i nodes
  induction nodes generalizing i with
  | nil => cases i <;> rfl
  | cons n rest ih => cases i <;> simp [setSelectedFlag, ih]

/-- Setting a selection flag changes no node's position or camera distance. -/
theorem setSelectedFlag_getD_fields (b : Bool) :
    ∀ (nodes : List ArtistNode) (i j : ℕ) (d : ArtistNode), j < nodes.length →
      ((setSelectedFlag b i nodes).getD j d).pos = (nodes.getD j d).pos
      ∧ ((setSelectedFlag b i nodes).getD j d).idealCameraDist
          = (nodes.getD j d).idealCameraDist := by
  intro nodes
  induction nodes with
  | nil => intro i j d h; simp at h
  | cons n rest ih =>
      intro i j d h
      cases i with
      | zero =>
          cases j with
          | zero => exact ⟨rfl, rfl⟩
          | succ j => exact ⟨rfl, rfl⟩
      | succ i =>
          cases j with
          | zero => exact ⟨rfl, rfl⟩
          | succ j =>
              simp only [setSelectedFlag, List.getD_cons_succ]
              exact ih i j d (by simpa using h)

/-- Setting a selection flag does not change the star-distance fold. -/
theorem foldl_vecLength_setSelectedFlag (p : Prims) (b : Bool) :
    ∀ (nodes : List ArtistNode) (i : ℕ) (acc : ℚ),
      (setSelectedFlag b i nodes).foldl (fun m n => max m (vecLength p n.pos)) acc
        = nodes.foldl (fun m n => max m (vecLength p n.pos)) acc := by
  intro nodes
  induction nodes with
  | nil => intro i acc; cases i <;> rfl
  | cons n rest ih =>
      intro i acc
      cases i with
      | zero => rfl
      | succ i => simp only [setSelectedFlag, List.foldl_cons]; exact ih i _

/-- `maxStarDist` is blind to selection flags. -/
theorem maxStarDist_setSelectedFlag (p : Prims) (b : Bool) (i : ℕ)
    (nodes : List ArtistNode) :
    maxStarDist p (setSelectedFlag b i nodes) = maxStarDist p nodes :=
  foldl_vecLength_setSelectedFlag p b nodes i 0

/-- C3: when a star click resolves to index `hit`, clicking the currently
selected star again returns to the galaxy level (selectedArtist and
selectedAlbum cleared, autoRotate on, exactly one `flyTo` to the origin at
distance `maxR * 1.5`), while clicking a different star transitions directly
to it (selectedArtist set, Artist level, autoRotate off, exactly one `flyTo`
to that star's position and `idealCameraDist`) - no intermediate galaxy
state; all fly targets here are rational, hence finite. -/
theorem starClick_toggle (p : Prims) (nodes : List ArtistNode) (st : SelState)
    (hit : ℤ) (hhit : 0 ≤ hit) (hrange : hit.toNat < nodes.length) :
    (hit = st.selectedArtist →
      ((resolveStarClick p nodes st hit).st.selectedArtist = -1
        ∧ (resolveStarClick p nodes st hit).st.selectedAlbum = -1
        ∧ (resolveStarClick p nodes st hit).st.currentLevel = G_ALPHA_LEVEL
        ∧ (resolveStarClick p nodes st hit).st.autoRotate = true
        ∧ (resolveStarClick p nodes st hit).flys
            = [(Vec3.zero, maxStarDist p nodes * 1.5)]))
    ∧ (hit ≠ st.selectedArtist →
      ((resolveStarClick p nodes st hit).st.selectedArtist = hit
        ∧ (resolveStarClick p nodes st hit).st.selectedAlbum = -1
        ∧ (resolveStarClick p nodes st hit).st.currentLevel = G_ARTIST_LEVEL
        ∧ (resolveStarClick p nodes st hit).st.autoRotate = false
        ∧ (resolveStarClick p nodes st hit).flys
            = [((nodes.getD hit.toNat defaultArtistNode).pos,
                (nodes.getD hit.toNat defaultArtistNode).idealCameraDist)])) := by
  constructor
  · intro he
    have hsel : 0 ≤ st.selectedArtist := he ▸ hhit
    simp only [resolveStarClick, if_pos hhit, if_pos hsel, if_pos he]
    refine ⟨trivial, trivial, trivial, trivial, ?_⟩
    rw [maxStarDist_setSelectedFlag]
  · intro hne
    simp only [resolveStarClick, if_pos hhit, if_neg hne]
    by_cases hsel : 0 ≤ st.selectedArtist
    · simp only [if_pos hsel]
      refine ⟨trivial, trivial, trivial, trivial, ?_⟩
      have hlen1 : hit.toNat < (setSelectedFlag false st.selectedArtist.toNat nodes).length := by
        rw [setSelectedFlag_length]; exact hrange
      have h2 := setSelectedFlag_getD_fields true
        (setSelectedFlag false st.selectedArtist.toNat nodes) hit.toNat hit.toNat
        defaultArtistNode hlen1
      have h1 := setSelectedFlag_getD_fields false nodes st.selectedArtist.toNat hit.toNat
        defaultArtistNode hrange
      rw [h2.1, h2.2, h1.1, h1.2]
    · simp only [if_neg hsel]
      refine ⟨trivial, trivial, trivial, trivial, ?_⟩
      have h2 := setSelectedFlag_getD_fields true nodes hit.toNat hit.toNat
        defaultArtistNode hrange
      rw [h2.1, h2.2]

/-- C3 witness: clicking the already selected star 0 of the one-star scene
deselects back to the galaxy level. -/
theorem starClick_toggle_witness :
    (resolveStarClick prims0 backNodes stStar0 0).st.selectedArtist = -1 :=
  ((starClick_toggle prims0 backNodes stStar0 0 (by decide) (by decide)).1 (by decide)).1

/-- C5 (counterexample): from the Track level (selectedAlbum = 0,
currentLevel = G_TRACK_LEVEL), the Escape back action jumps straight to the
Artist (Star) level - NOT one level up to the Album level - and issues no
`flyTo` at all; gamepad B also lands on the Artist level from Track. -/
theorem backAction_counterexample :
    (escapeBack prims0 backNodes stTrack0).st.currentLevel = G_ARTIST_LEVEL
    ∧ (escapeBack prims0 backNodes stTrack0).st.currentLevel ≠ G_ALBUM_LEVEL
    ∧ (escapeBack prims0 backNodes stTrack0).flys = []
    ∧ (gamepadBBack prims0 backNodes stTrack0).st.currentLevel = G_ARTIST_LEVEL := by
  refine ⟨by decide, by decide, by decide, by decide⟩

/-- C5 (amended): a back action (Escape or gamepad B) with an album selected
clears only the album selection and sets the Artist level - from the Album
level that is one step up, but from the Track level it skips the Album level;
gamepad B re-issues `flyTo(star.pos, star.idealCameraDist)` on this step
while Escape issues no `flyTo`.  With no album but a star selected, both
actions deselect to the galaxy level with autoRotate on and exactly one
`flyTo(origin, maxR * 1.5)`.  With nothing selected, Escape quits the app
and gamepad B does nothing. -/
theorem backAction_amended (p : Prims) (nodes : List ArtistNode) (st : SelState) :
    (0 ≤ st.selectedAlbum →
      ((escapeBack p nodes st).st.selectedAlbum = -1
        ∧ (escapeBack p nodes st).st.currentLevel = G_ARTIST_LEVEL
        ∧ (escapeBack p nodes st).st.selectedArtist = st.selectedArtist
        ∧ (escapeBack p nodes st).flys = []
        ∧ (gamepadBBack p nodes st).st.selectedAlbum = -1
        ∧ (gamepadBBack p nodes st).st.currentLevel = G_ARTIST_LEVEL
        ∧ (gamepadBBack p nodes st).flys
            = [((nodes.getD st.selectedArtist.toNat defaultArtistNode).pos,
                (nodes.getD st.selectedArtist.toNat defaultArtistNode).idealCameraDist)]))
    ∧ (st.selectedAlbum < 0 → 0 ≤ st.selectedArtist →
      ((escapeBack p nodes st).st.selectedArtist = -1
        ∧ (escapeBack p nodes st).st.currentLevel = G_ALPHA_LEVEL
        ∧ (escapeBack p nodes st).st.autoRotate = true
        ∧ (escapeBack p nodes st).flys = [(Vec3.zero, maxStarDist p nodes * 1.5)]
        ∧ gamepadBBack p nodes st = escapeBack p nodes st))
    ∧ (st.selectedAlbum < 0 → st.selectedArtist < 0 →
      ((escapeBack p nodes st).st.running = false
        ∧ (escapeBack p nodes st).flys = []
        ∧ gamepadBBack p nodes st = ⟨nodes, st, []⟩)) := by
  refine ⟨?_, ?_, ?_⟩
  · intro halb
    simp only [escapeBack, gamepadBBack, if_pos halb]
    exact ⟨trivial, trivial, trivial, trivial, trivial, trivial, trivial⟩
  · intro halb hart
    have halb1 : ¬ 0 ≤ st.selectedAlbum := not_le.mpr halb
    simp only [escapeBack, gamepadBBack, if_neg halb1, if_pos hart]
    refine ⟨trivial, trivial, trivial, ?_, trivial⟩
    rw [maxStarDist_setSelectedFlag]
  · intro halb hart
    have halb1 : ¬ 0 ≤ st.selectedAlbum := not_le.mpr halb
    have hart1 : ¬ 0 ≤ st.selectedArtist := not_le.mpr hart
    simp only [escapeBack, gamepadBBack, if_neg halb1, if_neg hart1]
    exact ⟨trivial, trivial, trivial⟩

/-- C5 witness: the amended theorem applied at the concrete Track-level
state: Escape clears the album and lands on the Artist level. -/
theorem backAction_amended_witness :
    (escapeBack prims0 backNodes stTrack0).st.selectedAlbum = -1 :=
  ((backAction_amended prims0 backNodes stTrack0).1 (by decide)).1

/-- The per-file fallbacks make every normalized track good, provided the
file has a non-empty stem and parent folder name. -/
theorem normalizeTrack_good (f : RawFile) (hstem : f.stem ≠ "")
    (hpar : f.parentName ≠ "") : goodTrack (normalizeTrack f) := by
  cases htag : f.tag with
  | none =>
      simp only [normalizeTrack, htag, goodTrack]
      refine ⟨?_, ?_, ?_, ?_⟩ <;> split_ifs <;> simp_all
  | some tag =>
      simp only [normalizeTrack, htag, goodTrack]
      refine ⟨?_, ?_, ?_, ?_⟩ <;> split_ifs <;> simp_all

/-- `insertAssoc` preserves a pointwise value property, given the property
for the updated default and preservation under the update. -/
theorem insertAssoc_forall {α : Type} (P : α → Prop) (k : String) (upd : α → α)
    (dflt : α) :
    ∀ (l : List (String × α)), (∀ kv ∈ l, P kv.2) → P (upd dflt) →
      (∀ v, P v → P (upd v)) →
      ∀ kv ∈ insertAssoc k upd dflt l, P kv.2 := by
  intro l
  induction l with
  | nil =>
      intro _hl hd _hu kv hkv
      simp only [insertAssoc, List.mem_singleton] at hkv
      subst hkv; exact hd
  | cons x rest ih =>
      intro hl hd hu kv hkv
      obtain ⟨k1, v⟩ := x
      simp only [insertAssoc] at hkv
      by_cases he : k = k1
      · simp only [if_pos he, List.mem_cons] at hkv
        rcases hkv with rfl | hkv
        · exact hu v (hl (k1, v) (List.mem_cons_self _ _))
        · exact hl kv (List.mem_cons_of_mem _ hkv)
      · simp only [if_neg he] at hkv
        by_cases hlt : k < k1
        · simp only [if_pos hlt, List.mem_cons] at hkv
          rcases hkv with rfl | rfl | hkv
          · exact hd
          · exact hl (k1, v) (List.mem_cons_self _ _)
          · exact hl kv (List.mem_cons_of_mem _ hkv)
        · simp only [if_neg hlt, List.mem_cons] at hkv
          rcases hkv with rfl | hkv
          · exact hl (k1, v) (List.mem_cons_self _ _)
          · exact ih (fun kv2 h2 => hl kv2 (List.mem_cons_of_mem _ h2)) hd hu kv hkv

/-- Adding one good track to the nested artist-album map keeps every stored
track good. -/
theorem addTrack_pres (m : List (String × List (String × AlbumData))) (t : TrackData)
    (hm : ∀ kv ∈ m, ∀ kv2 ∈ kv.2, ∀ x ∈ kv2.2.tracks, goodTrack x)
    (ht : goodTrack t) :
    ∀ kv ∈ addTrack m t, ∀ kv2 ∈ kv.2, ∀ x ∈ kv2.2.tracks, goodTrack x := by
  have hAlbumUpd : ∀ (a : AlbumData), (∀ x ∈ a.tracks, goodTrack x) →
      ∀ x ∈ (updateAlbum t a).tracks, goodTrack x := by
    intro a ha x hx
    simp only [updateAlbum, List.mem_append, List.mem_singleton] at hx
    rcases hx with hx | rfl
    · exact ha x hx
    · exact ht
  have hInner : ∀ (am : List (String × AlbumData)),
      (∀ kv2 ∈ am, ∀ x ∈ kv2.2.tracks, goodTrack x) →
      ∀ kv2 ∈ insertAssoc t.album (updateAlbum t) emptyAlbum am,
        ∀ x ∈ kv2.2.tracks, goodTrack x := by
    intro am ham
    refine insertAssoc_forall (fun a => ∀ x ∈ a.tracks, goodTrack x) t.album
      (updateAlbum t) emptyAlbum am ham ?_ hAlbumUpd
    exact hAlbumUpd emptyAlbum (by simp [emptyAlbum])
  exact insertAssoc_forall
    (fun am => ∀ kv2 ∈ am, ∀ x ∈ kv2.2.tracks, goodTrack x)
    t.albumArtist (insertAssoc t.album (updateAlbum t) emptyAlbum) [] m hm
    (hInner [] (by simp)) hInner

/-- The scanner's grouping loop stores only good tracks. -/
theorem groupFiles_good :
    ∀ (files : List RawFile) (m : List (String × List (String × AlbumData))),
      (∀ f ∈ files, f.stem ≠ "" ∧ f.parentName ≠ "") →
      (∀ kv ∈ m, ∀ kv2 ∈ kv.2, ∀ x ∈ kv2.2.tracks, goodTrack x) →
      ∀ kv ∈ files.foldl (fun m2 f => addTrack m2 (normalizeTrack f)) m,
        ∀ kv2 ∈ kv.2, ∀ x ∈ kv2.2.tracks, goodTrack x := by
  intro files
  induction files with
  | nil => intro m _hf hm; exact hm
  | cons f rest ih =>
      intro m hf hm
      simp only [List.foldl_cons]
      refine ih (addTrack m (normalizeTrack f)) ?_ ?_
      · intro g hg; exact hf g (List.mem_cons_of_mem _ hg)
      · have hfh := hf f (List.mem_cons_self _ _)
        exact addTrack_pres m (normalizeTrack f) hm (normalizeTrack_good f hfh.1 hfh.2)

/-- Membership through `insertSorted`. -/
theorem mem_insertSorted {α : Type} (lt : α → α → Bool) (a x : α) :
    ∀ (l : List α), x ∈ insertSorted lt a l ↔ x = a ∨ x ∈ l := by
  intro l
  induction l with
  | nil => simp [insertSorted]
  | cons b rest ih =>
      simp only [insertSorted]
      by_cases hb : lt a b
      · simp [hb, List.mem_cons]
      · simp only [if_neg hb, List.mem_cons, ih]
        tauto

/-- `sortBy` is a permutation-level operation: membership is preserved. -/
theorem mem_sortBy {α : Type} (lt : α → α → Bool) (x : α) :
    ∀ (l : List α), x ∈ sortBy lt l ↔ x ∈ l := by
  intro l
  induction l with
  | nil => simp [sortBy]
  | cons a rest ih =>
      simp only [sortBy, List.foldr_cons]
      rw [mem_insertSorted]
      simp only [List.mem_cons]
      rw [show (sortBy lt rest = rest.foldr (insertSorted lt) []) from rfl] at ih
      tauto

/-- Building one artist from its album-map entry keeps every track good. -/
theorem buildArtistData_tracks_good (nm : String) (am : List (String × AlbumData))
    (h : ∀ kv2 ∈ am, ∀ x ∈ kv2.2.tracks, goodTrack x) :
    ∀ alb ∈ (buildArtistData nm am).albums, ∀ t ∈ alb.tracks, goodTrack t := by
  intro alb halb t ht
  simp only [buildArtistData] at halb
  rw [mem_sortBy] at halb
  rcases List.mem_map.mp halb with ⟨kv, hkv, rfl⟩
  simp only at ht
  rw [mem_sortBy] at ht
  exact h kv hkv t ht

/-- C9: every track of every album of every artist in the library returned
by `scanMusicLibrary` has a non-empty title, artist and album (the scanner
falls back to the file stem for the title and the parent folder name for the
artist/album when tags are empty) and a strictly positive duration
(non-positive durations are replaced by the fixed 180-second default) -
provided each scanned file's stem and parent folder name are non-empty,
which holds for every regular audio file found by the directory walk. -/
theorem scanMusicLibrary_track_postcondition (files : List RawFile)
    (h : ∀ f ∈ files, f.stem ≠ "" ∧ f.parentName ≠ "") :
    ∀ a ∈ (scanMusicLibrary files).artists, ∀ alb ∈ a.albums, ∀ t ∈ alb.tracks,
      t.title ≠ "" ∧ t.artist ≠ "" ∧ t.album ≠ "" ∧ 0 < t.duration := by
  intro a ha alb halb t ht
  simp only [scanMusicLibrary] at ha
  rw [mem_sortBy] at ha
  rcases List.mem_map.mp ha with ⟨kv, hkv, rfl⟩
  have hgood := groupFiles_good files [] h (by simp) kv hkv
  exact buildArtistData_tracks_good kv.1 kv.2 hgood alb halb t ht

/-- C9 witness: the track scanned from the concrete tagless file has a
strictly positive (defaulted) duration. -/
theorem scanMusicLibrary_track_postcondition_witness : 0 < scannedTrack0.duration :=
  (scanMusicLibrary_track_postcondition [sampleRawFile] (by decide)
    scannedArtist0 (getD_mem _ 0 _ (by decide))
    scannedAlbum0 (getD_mem _ 0 _ (by decide))
    scannedTrack0 (getD_mem _ 0 _ (by decide))).2.2.2

end Planetary
